import Mathlib

/-!
Verification of the memory recall subsystem of the quant-chat scaffold.

The development shallowly embeds the server-side pieces the claims are
about:

* the `hybrid_search_memories` SQL function
  (supabase/migrations/20251125000001_fix_memory_rpc_table_references.sql),
* the `search_memory_notes` SQL function
  (supabase/migrations/20251119194601_7995dfe3-5bbe-4d8d-8525-f51bbbfc8485.sql),
* the `memory-search` and `memory-update` Deno edge functions
  (supabase/functions/memory-search/index.ts,
   supabase/functions/memory-update/index.ts),
* the `memory:recall` IPC handler (electron memory IPC handlers), and
* `validateIPC` plus the memory schemas (src/electron/validation/schemas.ts).

Numeric SQL/JS values (REAL, score arithmetic) are modelled over `ℚ`;
UUID identity columns are modelled as `Nat`; timestamps as `Nat`.
The external operators used by the SQL functions (`ts_rank_cd`,
`@@ plainto_tsquery`, the pgvector cosine-distance operator, and the
embedding generator) are taken as parameters: the SQL function bodies
never constrain them, they only consume their outputs.
-/

namespace QuantChat

/-- A row of the `memory_notes` table, restricted to the columns the
functions under study read or write.  `archived` is a nullable boolean
column (added with `ADD COLUMN archived boolean DEFAULT false`, no
`NOT NULL` constraint), so it is modelled as `Option Bool`.  `run_id`
and `metadata` are never inspected by the code under study and are
omitted.  `importance_score` is modelled non-null, matching the
enhanced schema's defaulted REAL column. -/
structure MemoryNote where
  id : Nat
  workspace_id : Nat
  content : String
  summary : Option String := none
  memory_type : Option String := none
  category : Option String := none
  symbols : List String := []
  tags : List String := []
  source : String := "chat"
  importance : Option String := none
  importance_score : ℚ := 0
  archived : Option Bool := none
  protection_level : Option Nat := none
  embedding : Option (List ℚ) := none
  created_at : Nat := 0
  deriving Repr, DecidableEq

/-- Output row type of `hybrid_search_memories` (its RETURNS TABLE). -/
structure HybridRow where
  id : Nat
  content : String
  summary : Option String
  memory_type : Option String
  category : Option String
  symbols : List String
  importance_score : ℚ
  bm25_score : Option ℚ
  vector_score : Option ℚ
  hybrid_score : ℚ
  created_at : Nat
  deriving Repr, DecidableEq

/-- JavaScript `String.prototype.trim()`: strips leading and trailing
whitespace (modelled over the character list, so that it evaluates). -/
def jsTrim (s : String) : String :=
  String.mk (((s.data.dropWhile Char.isWhitespace).reverse.dropWhile
    Char.isWhitespace).reverse)

/-- The cosine distance `m.embedding <=> query_embedding` applied to a
row; only ever used on rows whose `embedding IS NOT NULL`. -/
def vdist (dist : List ℚ → ℚ) (m : MemoryNote) : ℚ :=
  match m.embedding with
  | some v => dist v
  | none => 0

/-- The `bm25_scores` CTE of `hybrid_search_memories`:
rows of the workspace whose tsvector matches the query, with
`importance_score >= min_importance` and
`(archived IS NULL OR archived = FALSE)`, scored by `ts_rank_cd`. -/
def bm25Scores (rank : MemoryNote → ℚ) (tsMatch : MemoryNote → Bool)
    (table : List MemoryNote) (wid : Nat) (minImp : ℚ) : List (Nat × ℚ) :=
  (table.filter (fun m =>
      decide (m.workspace_id = wid) && tsMatch m &&
      decide (minImp ≤ m.importance_score) &&
      decide (m.archived ≠ some true))).map (fun m => (m.id, rank m))

/-- The `vector_scores` CTE of `hybrid_search_memories`:
workspace rows with a non-null embedding, the same importance and
archived filters, ordered by cosine distance, limited to
`limit_count * 2`, scored by `1 - distance`. -/
def vectorScores (dist : List ℚ → ℚ) (table : List MemoryNote)
    (wid : Nat) (limitCount : Nat) (minImp : ℚ) : List (Nat × ℚ) :=
  ((List.insertionSort (fun a b => vdist dist a ≤ vdist dist b)
      (table.filter (fun m =>
        decide (m.workspace_id = wid) && m.embedding.isSome &&
        decide (minImp ≤ m.importance_score) &&
        decide (m.archived ≠ some true)))).take (limitCount * 2)).map
    (fun m => (m.id, 1 - vdist dist m))

/-- A row of the `combined` CTE: the FULL OUTER JOIN of the two score
CTEs on memory id, with `COALESCE(score, 0)` applied before weighting. -/
structure CombinedEntry where
  memory_id : Nat
  weighted_bm25 : ℚ
  weighted_vector : ℚ
  deriving Repr, DecidableEq

/-- The `combined` CTE.  The FULL OUTER JOIN is realised as: every
bm25 row joined with its vector partner when one exists (first part),
plus every vector row with no bm25 partner (second part). -/
def combinedEntries (b v : List (Nat × ℚ)) (wb wv : ℚ) : List CombinedEntry :=
  (b.map (fun bb =>
    { memory_id := bb.1
      weighted_bm25 := bb.2 * wb
      weighted_vector :=
        (match v.find? (fun vv => decide (vv.1 = bb.1)) with
          | some vv => vv.2
          | none => 0) * wv })) ++
  ((v.filter (fun vv =>
      (b.find? (fun bb => decide (bb.1 = vv.1))).isNone)).map (fun vv =>
    { memory_id := vv.1, weighted_bm25 := 0, weighted_vector := vv.2 * wv }))

/-- The final SELECT of `hybrid_search_memories` for one combined entry
joined back to its `memory_notes` row.  `NULLIF(weight, 0)` makes the
reported raw score NULL when the weight is zero. -/
def mkHybridRow (wb wv : ℚ) (m : MemoryNote) (c : CombinedEntry) : HybridRow :=
  { id := m.id
    content := m.content
    summary := m.summary
    memory_type := m.memory_type
    category := m.category
    symbols := m.symbols
    importance_score := m.importance_score
    bm25_score := if wb = 0 then none else some (c.weighted_bm25 / wb)
    vector_score := if wv = 0 then none else some (c.weighted_vector / wv)
    hybrid_score := (c.weighted_bm25 + c.weighted_vector) * m.importance_score
    created_at := m.created_at }

/-- The final SELECT of `hybrid_search_memories` before ORDER BY/LIMIT:
each combined entry joined back to `memory_notes` on `m.id = c.memory_id`
(`id` is the table's primary key; the join is realised as a first-match
lookup). -/
def hybridRowsUnsorted (rank : MemoryNote → ℚ) (tsMatch : MemoryNote → Bool)
    (dist : List ℚ → ℚ) (table : List MemoryNote) (wid : Nat)
    (limitCount : Nat) (wb wv minImp : ℚ) : List HybridRow :=
  (combinedEntries (bm25Scores rank tsMatch table wid minImp)
      (vectorScores dist table wid limitCount minImp) wb wv).filterMap (fun c =>
    (table.find? (fun m => decide (m.id = c.memory_id))).map
      (fun m => mkHybridRow wb wv m c))

/-- The `hybrid_search_memories` SQL function: both CTEs, the combined
join, the join back to `memory_notes` by primary key, then
`ORDER BY hybrid_score DESC LIMIT limit_count`. -/
def hybrid_search_memories (rank : MemoryNote → ℚ) (tsMatch : MemoryNote → Bool)
    (dist : List ℚ → ℚ) (table : List MemoryNote) (wid : Nat)
    (limitCount : Nat) (wb wv minImp : ℚ) : List HybridRow :=
  (List.insertionSort (fun a b => b.hybrid_score ≤ a.hybrid_score)
    (hybridRowsUnsorted rank tsMatch dist table wid limitCount wb wv minImp)).take
    limitCount

/-- Parameter defaults of `hybrid_search_memories`
(`bm25_weight REAL DEFAULT 0.3`). -/
def default_bm25_weight : ℚ := 3 / 10

/-- Parameter defaults of `hybrid_search_memories`
(`vector_weight REAL DEFAULT 0.7`). -/
def default_vector_weight : ℚ := 7 / 10

/-- Output row type of `search_memory_notes` (its RETURNS TABLE); the
`run_id` and `metadata` columns are omitted (never inspected).  Note the
RPC output carries no `archived` column. -/
structure SmnRow where
  id : Nat
  workspace_id : Nat
  content : String
  source : String
  tags : List String
  created_at : Nat
  memory_type : String
  importance : String
  similarity : ℚ
  deriving Repr, DecidableEq

/-- The `search_memory_notes` SQL function: workspace rows with a
non-null embedding, `archived = false` (a strict equality: NULL rows
are excluded), similarity strictly above the threshold, ordered by
cosine distance, limited to `match_count`.  `memory_type` and
`importance` are COALESCEd to `'insight'` / `'normal'`. -/
def search_memory_notes (dist : List ℚ → ℚ) (table : List MemoryNote)
    (wid : Nat) (threshold : ℚ) (matchCount : Nat) : List SmnRow :=
  (((List.insertionSort (fun a b => vdist dist a ≤ vdist dist b)
      (table.filter (fun m =>
        decide (m.workspace_id = wid) && m.embedding.isSome &&
        decide (m.archived = some false) &&
        decide (threshold < 1 - vdist dist m)))).take matchCount).map
    (fun m =>
      { id := m.id
        workspace_id := m.workspace_id
        content := m.content
        source := m.source
        tags := m.tags
        created_at := m.created_at
        memory_type := m.memory_type.getD ("insight")
        importance := m.importance.getD ("normal")
        similarity := 1 - vdist dist m }))

/-- Response of the `memory-search` edge function. -/
structure MemorySearchResponse where
  status : Nat
  results : List SmnRow
  errMsg : Option String
  deriving Repr, DecidableEq

/-- `Math.min(limit, 50)` with the destructuring default `limit = 10`
of the `memory-search` handler. -/
def matchCountOf (limit : Option Int) : Int :=
  min (limit.getD 10) 50

/-- The JavaScript read `note.archived` on a row coming back from the
`search_memory_notes` RPC: the RPC output has no `archived` column, so
the property access yields `undefined`, modelled as `none`. -/
def jsArchivedField (_r : SmnRow) : Option Bool := none

/-- The `memory-search` edge function handler: validates `workspaceId`
and `query`, then calls the `search_memory_notes` RPC with threshold
0.5 and `match_count = Math.min(limit, 50)`, and finally filters out
rows whose `archived` field reads `true`.  The embedding-generation and
configuration failure branches are controlled by `embedOk` (they return
empty results with a 500 status). -/
def memory_search (dist : List ℚ → ℚ) (table : List MemoryNote)
    (wid : Option Nat) (query : String) (limit : Option Int)
    (embedOk : Bool) : MemorySearchResponse :=
  match wid with
  | none => ⟨400, [], some ("workspaceId is required")⟩
  | some w =>
    if decide (jsTrim query = "") then
      ⟨400, [], some ("query is required and must be a non-empty string")⟩
    else if !embedOk then
      ⟨500, [], some ("EMBEDDING_FAILED")⟩
    else
      let data := search_memory_notes dist table w (1 / 2) (matchCountOf limit).toNat
      ⟨200, data.filter (fun r => !decide (jsArchivedField r = some true)), none⟩

/-- Request body of the `memory-update` edge function. -/
structure UpdateRequest where
  noteId : Option Nat := none
  content : Option String := none
  memoryType : Option String := none
  importance : Option String := none
  tags : Option (List String) := none
  archived : Option Bool := none
  deriving Repr, DecidableEq

/-- Response of the `memory-update` edge function: either an error with
an HTTP status and the response's error string, or success carrying the
updated note. -/
inductive UpdateResp where
  | err (status : Nat) (msg : String)
  | ok (note : MemoryNote)
  deriving Repr, DecidableEq

/-- The `validTypes` list of the `memory-update` handler. -/
def validTypes : List String :=
  ["insight", "rule", "warning", "todo", "bug", "profile_change"]

/-- The `validImportance` list of the `memory-update` handler. -/
def validImportance : List String :=
  ["low", "normal", "high", "critical"]

/-- Error string the handler produces for an invalid `memoryType`. -/
def typeErrMsg : String :=
  "Invalid memory_type. Must be one of: insight, rule, warning, todo, bug, profile_change"

/-- Error string the handler produces for an invalid `importance`. -/
def importanceErrMsg : String :=
  "Invalid importance. Must be one of: low, normal, high, critical"

/-- `memoryType && !validTypes.includes(memoryType)`: the check fires
only for a truthy (present, non-empty) string outside the list. -/
def badType (req : UpdateRequest) : Bool :=
  match req.memoryType with
  | some t => !decide (t = "") && !decide (t ∈ validTypes)
  | none => false

/-- `importance && !validImportance.includes(importance)`. -/
def badImportance (req : UpdateRequest) : Bool :=
  match req.importance with
  | some i => !decide (i = "") && !decide (i ∈ validImportance)
  | none => false

/-- Content present but empty after trimming
(`!trimmedContent` after `String(content).trim()`). -/
def contentEmpty (req : UpdateRequest) : Bool :=
  match req.content with
  | some c => decide (jsTrim c = "")
  | none => false

/-- The field mutations of the `memory-update` handler applied to the
fetched note: trimmed content (with embedding regeneration via the
external `generateEmbedding`, kept unchanged when generation fails),
then `memory_type`, `importance`, `tags`, `archived` whenever the
request supplies them. -/
def applyUpdate (genEmbed : String → Option (List ℚ)) (req : UpdateRequest)
    (note : MemoryNote) : MemoryNote :=
  let n1 :=
    match req.content with
    | some c =>
      let t := jsTrim c
      let withEmb :=
        if decide (t ≠ note.content) then
          match genEmbed t with
          | some e => { note with embedding := some e }
          | none => note
        else note
      { withEmb with content := t }
    | none => note
  let n2 :=
    match req.memoryType with
    | some t => { n1 with memory_type := some t }
    | none => n1
  let n3 :=
    match req.importance with
    | some i => { n2 with importance := some i }
    | none => n2
  let n4 :=
    match req.tags with
    | some ts => { n3 with tags := ts }
    | none => n3
  match req.archived with
  | some a => { n4 with archived := some a }
  | none => n4

/-- The `memory-update` edge function handler
(supabase/functions/memory-update/index.ts): requires `noteId`,
validates `memoryType` and `importance` against the fixed lists,
fetches the note, rejects empty content, and otherwise applies the
update unconditionally — the handler never reads `protection_level`.
Returns the response together with the resulting table state. -/
def memory_update (genEmbed : String → Option (List ℚ))
    (db : List MemoryNote) (req : UpdateRequest) :
    UpdateResp × List MemoryNote :=
  match req.noteId with
  | none => (.err 400 "noteId is required", db)
  | some nid =>
    if badType req then (.err 400 typeErrMsg, db)
    else if badImportance req then (.err 400 importanceErrMsg, db)
    else
      match db.find? (fun m => decide (m.id = nid)) with
      | none => (.err 404 "Note not found", db)
      | some note =>
        if contentEmpty req then (.err 400 "Content cannot be empty", db)
        else
          let updated := applyUpdate genEmbed req note
          (.ok updated, db.map (fun m => if decide (m.id = nid) then updated else m))

/-- Result object of `RecallEngine.recall`, as returned through the
`memory:recall` IPC handler (`errMsg` models the handler's optional
`error` field). -/
structure RecallResult where
  memories : List MemoryNote
  totalFound : Nat
  searchTimeMs : Nat
  usedCache : Bool
  query : String
  errMsg : Option String := none
  deriving Repr, DecidableEq

/-- The `memory:recall` IPC handler: `engine` is the outcome of the
`recallEngine.recall` call — `none` when the engine is uninitialized,
`some (.error e)` when the awaited call throws with message `e`, and
`some (.ok r)` when it resolves with `r`. -/
def memory_recall_handler (engine : Option (Except String RecallResult))
    (query : String) : RecallResult :=
  match engine with
  | none =>
    { memories := [], totalFound := 0, searchTimeMs := 0
      usedCache := false, query := query }
  | some (.ok r) => r
  | some (.error e) =>
    { memories := [], totalFound := 0, searchTimeMs := 0
      usedCache := false, query := query, errMsg := some e }

/-- A Zod schema at the granularity `validateIPC` uses it: a boolean
acceptance check plus the formatted issue list `safeParse` reports on
failure. -/
structure IpcSchema (α : Type) where
  check : α → Bool
  issues : α → String

/-- `validateIPC` (src/electron/validation/schemas.ts): `safeParse`,
then either the data unchanged or a thrown
`Invalid ${context}: ${errors}` error. -/
def validateIPC {α : Type} (schema : IpcSchema α) (data : α)
    (context : String) : Except String α :=
  if schema.check data then .ok data
  else .error ("Invalid " ++ context ++ ": " ++ schema.issues data)

/-- Hexadecimal digit check for the UUID format. -/
def isHexDigit (c : Char) : Bool :=
  ('0' ≤ c && c ≤ '9') || ('a' ≤ c && c ≤ 'f') || ('A' ≤ c && c ≤ 'F')

/-- Character admissible at position `i` of the canonical
8-4-4-4-12 UUID format: a dash at positions 8, 13, 18, 23 and a hex
digit elsewhere. -/
def uuidCharOk (i : Nat) (c : Char) : Bool :=
  if i = 8 || i = 13 || i = 18 || i = 23 then c = '-' else isHexDigit c

/-- `z.string().uuid()`: 36 characters in the canonical 8-4-4-4-12
hex-and-dash layout (case-insensitive). -/
def isUuid (s : String) : Bool :=
  decide (s.data.length = 36) &&
  s.data.enum.all (fun p => uuidCharOk p.1 p.2)

/-- `WorkspaceIdSchema = z.string().uuid()`. -/
def WorkspaceIdSchema : IpcSchema String :=
  { check := isUuid, issues := fun _ => "Invalid uuid" }

/-- `MemoryQuerySchema = z.string().min(1).max(2000)`. -/
def MemoryQuerySchema : IpcSchema String :=
  { check := fun s => decide (1 ≤ s.length) && decide (s.length ≤ 2000)
    issues := fun s =>
      if s.length = 0 then ("String must contain at least 1 character(s)")
      else ("String must contain at most 2000 character(s)") }

/-- The asserted tie-break policy, as a predicate on an output list:
whenever an earlier row and a later row have equal blended scores, the
earlier one has the higher protection priority (smaller
`protection_level`, IMMUTABLE = 0 first), and on equal levels the more
recent `created_at`.  `lvl` reads the underlying record's protection
level off its id. -/
def tieBreakOk (lvl : Nat → Nat) (r : List HybridRow) : Prop :=
  r.Pairwise (fun a b => a.hybrid_score = b.hybrid_score →
    (lvl a.id < lvl b.id ∨ (lvl a.id = lvl b.id ∧ b.created_at ≤ a.created_at)))

/-- `id` is the primary key of `memory_notes`: rows with equal ids are
equal.  Stated as a consequence of `Nodup` of the id column. -/
lemma note_id_unique {table : List MemoryNote}
    (hnd : (table.map MemoryNote.id).Nodup) {m1 m2 : MemoryNote}
    (h1 : m1 ∈ table) (h2 : m2 ∈ table) (h : m1.id = m2.id) : m1 = m2 :=
  List.inj_on_of_nodup_map hnd h1 h2 h

/-- Every bm25 CTE row comes from a table row passing all the CTE's
WHERE conditions. -/
lemma mem_bm25Scores {rank : MemoryNote → ℚ} {tsM : MemoryNote → Bool}
    {table : List MemoryNote} {wid : Nat} {minImp : ℚ} {p : Nat × ℚ}
    (hp : p ∈ bm25Scores rank tsM table wid minImp) :
    ∃ m ∈ table, m.id = p.1 ∧ p.2 = rank m ∧ m.workspace_id = wid ∧
      tsM m = true ∧ minImp ≤ m.importance_score ∧ m.archived ≠ some true := by
  unfold bm25Scores at hp
  rcases List.mem_map.mp hp with ⟨m, hm, hpm⟩
  rcases List.mem_filter.mp hm with ⟨hmem, hcond⟩
  simp only [Bool.and_eq_true, decide_eq_true_eq] at hcond
  obtain ⟨⟨⟨hw, ht⟩, hi⟩, ha⟩ := hcond
  subst hpm
  exact ⟨m, hmem, rfl, rfl, hw, ht, hi, ha⟩

/-- Every vector CTE row comes from a table row passing all the CTE's
WHERE conditions. -/
lemma mem_vectorScores {dist : List ℚ → ℚ} {table : List MemoryNote}
    {wid : Nat} {lim : Nat} {minImp : ℚ} {p : Nat × ℚ}
    (hp : p ∈ vectorScores dist table wid lim minImp) :
    ∃ m ∈ table, m.id = p.1 ∧ p.2 = 1 - vdist dist m ∧ m.workspace_id = wid ∧
      m.embedding.isSome = true ∧ minImp ≤ m.importance_score ∧
      m.archived ≠ some true := by
  unfold vectorScores at hp
  rcases List.mem_map.mp hp with ⟨m, hm, hpm⟩
  have hm2 := List.mem_of_mem_take hm
  have hm3 := (List.mem_insertionSort _).mp hm2
  rcases List.mem_filter.mp hm3 with ⟨hmem, hcond⟩
  simp only [Bool.and_eq_true, decide_eq_true_eq] at hcond
  obtain ⟨⟨⟨hw, he⟩, hi⟩, ha⟩ := hcond
  subst hpm
  exact ⟨m, hmem, rfl, rfl, hw, he, hi, ha⟩

/-- Shape of a combined CTE entry: its weighted components are the
COALESCEd raw CTE scores times the weights, at least one of the two
CTEs contributed, and an absent side means no CTE row with that id
exists at all. -/
lemma mem_combinedEntries {b v : List (Nat × ℚ)} {wb wv : ℚ}
    {c : CombinedEntry} (hc : c ∈ combinedEntries b v wb wv) :
    ∃ sb sv : ℚ,
      ((c.memory_id, sb) ∈ b ∨ (sb = 0 ∧ ∀ s, (c.memory_id, s) ∉ b)) ∧
      ((c.memory_id, sv) ∈ v ∨ (sv = 0 ∧ ∀ s, (c.memory_id, s) ∉ v)) ∧
      ((c.memory_id, sb) ∈ b ∨ (c.memory_id, sv) ∈ v) ∧
      c.weighted_bm25 = sb * wb ∧ c.weighted_vector = sv * wv := by
  unfold combinedEntries at hc
  rcases List.mem_append.mp hc with h | h
  · rcases List.mem_map.mp h with ⟨bb, hbb, hcbb⟩
    subst hcbb
    have hbmem : ((bb.1, bb.2) : Nat × ℚ) ∈ b := by
      simpa using hbb
    cases hfind : v.find? (fun vv => decide (vv.1 = bb.1)) with
    | some vv =>
      have hvv0 := List.find?_some hfind
      simp only [decide_eq_true_eq] at hvv0
      have hvv1 : vv.1 = bb.1 := hvv0
      have hvmem : ((bb.1, vv.2) : Nat × ℚ) ∈ v := by
        rw [← hvv1]
        simpa using List.mem_of_find?_eq_some hfind
      refine ⟨bb.2, vv.2, Or.inl hbmem, Or.inl hvmem, Or.inl hbmem, rfl, ?_⟩
      simp [hfind]
    | none =>
      have hnone : ∀ s : ℚ, ((bb.1, s) : Nat × ℚ) ∉ v := by
        intro s hs
        have := List.find?_eq_none.mp hfind _ hs
        simp at this
      refine ⟨bb.2, 0, Or.inl hbmem, Or.inr ⟨rfl, hnone⟩, Or.inl hbmem, rfl, ?_⟩
      simp [hfind]
  · rcases List.mem_map.mp h with ⟨vv, hvv, hcvv⟩
    subst hcvv
    rcases List.mem_filter.mp hvv with ⟨hvmem0, hcond⟩
    have hvmem : ((vv.1, vv.2) : Nat × ℚ) ∈ v := by simpa using hvmem0
    have hfind : b.find? (fun bb => decide (bb.1 = vv.1)) = none := by
      simpa [Option.isNone_iff_eq_none] using hcond
    have hnone : ∀ s : ℚ, ((vv.1, s) : Nat × ℚ) ∉ b := by
      intro s hs
      have := List.find?_eq_none.mp hfind _ hs
      simp at this
    exact ⟨0, vv.2, Or.inr ⟨rfl, hnone⟩, Or.inl hvmem, Or.inr hvmem,
      (zero_mul wb).symm, rfl⟩

/-- Every pre-sort output row of `hybrid_search_memories` is
`mkHybridRow` of a combined entry and the first table row whose id
matches it. -/
lemma mem_hybridRowsUnsorted {rank : MemoryNote → ℚ} {tsM : MemoryNote → Bool}
    {dist : List ℚ → ℚ} {table : List MemoryNote} {wid lim : Nat}
    {wb wv minImp : ℚ} {row : HybridRow}
    (h : row ∈ hybridRowsUnsorted rank tsM dist table wid lim wb wv minImp) :
    ∃ c ∈ combinedEntries (bm25Scores rank tsM table wid minImp)
        (vectorScores dist table wid lim minImp) wb wv,
      ∃ m, List.find? (fun x => decide (x.id = c.memory_id)) table = some m ∧
        row = mkHybridRow wb wv m c := by
  unfold hybridRowsUnsorted at h
  rcases List.mem_filterMap.mp h with ⟨c, hc, hfc⟩
  rcases Option.map_eq_some'.mp hfc with ⟨m, hfind, hrm⟩
  exact ⟨c, hc, m, hfind, hrm.symm⟩

/-- Membership in the sorted, truncated output implies membership in
the pre-sort rows. -/
lemma mem_of_mem_hybrid {rank : MemoryNote → ℚ} {tsM : MemoryNote → Bool}
    {dist : List ℚ → ℚ} {table : List MemoryNote} {wid lim : Nat}
    {wb wv minImp : ℚ} {row : HybridRow}
    (h : row ∈ hybrid_search_memories rank tsM dist table wid lim wb wv minImp) :
    row ∈ hybridRowsUnsorted rank tsM dist table wid lim wb wv minImp := by
  unfold hybrid_search_memories at h
  exact (List.mem_insertionSort _).mp (List.mem_of_mem_take h)

/-- Full decomposition of a returned hybrid row: the joined table row,
its id agreement, and the combined entry's raw scores. -/
lemma hybrid_row_cases {rank : MemoryNote → ℚ} {tsM : MemoryNote → Bool}
    {dist : List ℚ → ℚ} {table : List MemoryNote} {wid lim : Nat}
    {wb wv minImp : ℚ} {row : HybridRow}
    (h : row ∈ hybrid_search_memories rank tsM dist table wid lim wb wv minImp) :
    ∃ c ∈ combinedEntries (bm25Scores rank tsM table wid minImp)
        (vectorScores dist table wid lim minImp) wb wv,
      ∃ m ∈ table, m.id = c.memory_id ∧ row = mkHybridRow wb wv m c := by
  obtain ⟨c, hc, m, hfind, hrm⟩ := mem_hybridRowsUnsorted (mem_of_mem_hybrid h)
  have hid0 := List.find?_some hfind
  simp only [decide_eq_true_eq] at hid0
  exact ⟨c, hc, m, List.mem_of_find?_eq_some hfind, hid0, hrm⟩

/-- Every row of `search_memory_notes` comes from a table row passing
the function's WHERE clause. -/
lemma mem_search_memory_notes {dist : List ℚ → ℚ} {table : List MemoryNote}
    {wid : Nat} {th : ℚ} {cnt : Nat} {row : SmnRow}
    (h : row ∈ search_memory_notes dist table wid th cnt) :
    ∃ m ∈ table, m.id = row.id ∧ m.workspace_id = wid ∧
      m.embedding.isSome = true ∧ m.archived = some false ∧
      th < 1 - vdist dist m ∧ row.similarity = 1 - vdist dist m := by
  unfold search_memory_notes at h
  rcases List.mem_map.mp h with ⟨m, hm, hrm⟩
  have hm2 := List.mem_of_mem_take hm
  have hm3 := (List.mem_insertionSort _).mp hm2
  rcases List.mem_filter.mp hm3 with ⟨hmem, hcond⟩
  simp only [Bool.and_eq_true, decide_eq_true_eq] at hcond
  obtain ⟨⟨⟨hw, he⟩, ha⟩, ht⟩ := hcond
  subst hrm
  exact ⟨m, hmem, rfl, hw, he, ha, ht, rfl⟩

/-- An IMMUTABLE (`protection_level = 0`) stored note, used to probe the
protection handling of the `memory-update` handler. -/
def c1Note : MemoryNote :=
  { id := 1, workspace_id := 7, content := "never short gamma into FOMC",
    importance_score := 1, protection_level := some 0, archived := some false }

/-- A note with an embedding, used to probe the score ranges of
`hybrid_search_memories`: its embedding is antipodal to the query
embedding, so the pgvector cosine distance is 2 and the vector score is
`1 - 2 = -1`. -/
def c4Note : MemoryNote :=
  { id := 1, workspace_id := 7, content := "m", importance_score := 1,
    embedding := some [1, 0], archived := some false }

/-- A STANDARD note (protection level 2, older), used for the tie-break
probe. -/
def c6A : MemoryNote :=
  { id := 1, workspace_id := 7, content := "a", importance_score := 1,
    protection_level := some 2, created_at := 5, embedding := some [1],
    archived := some false }

/-- An IMMUTABLE note (protection level 0, more recent) with the same
hybrid score as `c6A`. -/
def c6B : MemoryNote :=
  { id := 2, workspace_id := 7, content := "b", importance_score := 1,
    protection_level := some 0, created_at := 10, embedding := some [2],
    archived := some false }

/-- Protection level of the records of the tie-break probe, by id. -/
def c6lvl (i : Nat) : Nat := if i = 1 then 2 else 0

/-- Output row produced for `c6A`. -/
def c6RowA : HybridRow :=
  { id := 1, content := "a", summary := none, memory_type := none,
    category := none, symbols := [], importance_score := 1,
    bm25_score := some 0, vector_score := some (1 / 2),
    hybrid_score := 7 / 20, created_at := 5 }

/-- Output row produced for `c6B`. -/
def c6RowB : HybridRow :=
  { id := 2, content := "b", summary := none, memory_type := none,
    category := none, symbols := [], importance_score := 1,
    bm25_score := some 0, vector_score := some (1 / 2),
    hybrid_score := 7 / 20, created_at := 10 }

/-- Evaluation of the tie-break probe: both notes match only the vector
CTE with identical distance, so both get blended score `7/20`; the
output keeps candidate order `[c6A, c6B]`. -/
lemma c6_eval :
    hybrid_search_memories (fun _ => 0) (fun _ => false) (fun _ => 1 / 2)
      [c6A, c6B] 7 10 (3 / 10) (7 / 10) 0 = [c6RowA, c6RowB] := by
  simp [hybrid_search_memories, hybridRowsUnsorted, bm25Scores, vectorScores,
    combinedEntries, mkHybridRow, vdist, c6A, c6B, c6RowA, c6RowB, List.filter,
    List.insertionSort, List.orderedInsert, List.find?, List.filterMap]
  norm_num

/-- A non-archived workspace-3 note used as the standard witness
scenario: it matches both CTEs (lexical rank 2, cosine distance 1/4). -/
def wNote : MemoryNote :=
  { id := 5, workspace_id := 3, content := "gamma", importance_score := 1 / 2,
    archived := some false, embedding := some [1], created_at := 99,
    protection_level := some 2 }

/-- The hybrid output row of the witness scenario. -/
def wRow : HybridRow :=
  { id := 5, content := "gamma", summary := none, memory_type := none,
    category := none, symbols := [], importance_score := 1 / 2,
    bm25_score := some 2, vector_score := some (3 / 4),
    hybrid_score := 9 / 16, created_at := 99 }

/-- Evaluation of the witness scenario. -/
lemma w_eval :
    hybrid_search_memories (fun _ => 2) (fun _ => true) (fun _ => 1 / 4)
      [wNote] 3 10 (3 / 10) (7 / 10) 0 = [wRow] := by
  simp [hybrid_search_memories, hybridRowsUnsorted, bm25Scores, vectorScores,
    combinedEntries, mkHybridRow, vdist, wNote, wRow, List.filter,
    List.insertionSort, List.orderedInsert, List.find?, List.filterMap]
  norm_num

/-- The witness row is in the witness output. -/
lemma wRow_mem :
    wRow ∈ hybrid_search_memories (fun _ => 2) (fun _ => true) (fun _ => 1 / 4)
      [wNote] 3 10 (3 / 10) (7 / 10) 0 := by
  rw [w_eval]
  exact List.mem_singleton.mpr rfl

/-- The witness table has a duplicate-free id column. -/
lemma w_nodup : (([wNote]).map MemoryNote.id).Nodup := by simp

/-- A plain stored note used to probe `memory-update` type validation. -/
def c9Note : MemoryNote :=
  { id := 4, workspace_id := 2, content := "x", archived := some false }

/-- C1: the claim asserts that any attempt to set `archived = true` or
mutate the content of a `protection_level = 0` (IMMUTABLE) record fails
with an explicit permission error and leaves the record unchanged.
The `memory-update` handler contains no protection check at all: on the
IMMUTABLE record `c1Note`, the request `{noteId: 1, archived: true}`
returns success and the stored record comes back with
`archived = some true`.  This contradicts the repository's own
documentation (`ProtectionLevel.IMMUTABLE = 0 — cannot be modified or
archived`), so the claim is right and the code is wrong. -/
theorem memory_update_archives_immutable :
    memory_update (fun _ => none) [c1Note]
        { noteId := some 1, archived := some true } =
      (UpdateResp.ok { c1Note with archived := some true },
        [{ c1Note with archived := some true }]) ∧
    c1Note.protection_level = some 0 ∧ c1Note.archived = some false := by
  refine ⟨?_, rfl, rfl⟩
  simp [memory_update, badType, badImportance, contentEmpty, applyUpdate,
    List.find?, c1Note]

/-- C2: an `archived = true` record is never returned: every row of
`hybrid_search_memories` refers to a table record that is not archived
(the SQL keeps `archived IS NULL OR archived = FALSE` rows), every row
of `search_memory_notes` refers to a record with `archived = false`
exactly, and so does every row the `memory-search` endpoint returns. -/
theorem archived_rows_never_returned :
    (∀ rank tsM dist table wid lim wb wv minImp,
        (List.map MemoryNote.id table).Nodup →
        ∀ row ∈ hybrid_search_memories rank tsM dist table wid lim wb wv minImp,
          ∃ m ∈ table, m.id = row.id ∧ m.archived ≠ some true) ∧
    (∀ dist table wid th cnt,
        ∀ row ∈ search_memory_notes dist table wid th cnt,
          ∃ m ∈ table, m.id = row.id ∧ m.archived = some false) ∧
    (∀ dist table wid q lim eo,
        ∀ row ∈ (memory_search dist table wid q lim eo).results,
          ∃ m ∈ table, m.id = row.id ∧ m.archived = some false) := by
  refine ⟨?_, ?_, ?_⟩
  · intro rank tsM dist table wid lim wb wv minImp hnd row hrow
    obtain ⟨c, hc, m, hmem, hid, hrm⟩ := hybrid_row_cases hrow
    obtain ⟨sb, sv, _, _, hone, _, _⟩ := mem_combinedEntries hc
    have horigin : ∃ mm ∈ table, mm.id = c.memory_id ∧ mm.archived ≠ some true := by
      rcases hone with hbm | hvm
      · obtain ⟨mm, hmm, hmid, _, _, _, _, ha⟩ := mem_bm25Scores hbm
        exact ⟨mm, hmm, hmid, ha⟩
      · obtain ⟨mm, hmm, hmid, _, _, _, _, ha⟩ := mem_vectorScores hvm
        exact ⟨mm, hmm, hmid, ha⟩
    obtain ⟨mm, hmm, hmid, ha⟩ := horigin
    have hmeq : m = mm := note_id_unique hnd hmem hmm (by rw [hid, hmid])
    refine ⟨m, hmem, ?_, ?_⟩
    · rw [hrm]; rfl
    · rw [hmeq]; exact ha
  · intro dist table wid th cnt row hrow
    obtain ⟨m, hm, hid, _, _, ha, _, _⟩ := mem_search_memory_notes hrow
    exact ⟨m, hm, hid, ha⟩
  · intro dist table wid q lim eo row hrow
    cases wid with
    | none => simp [memory_search] at hrow
    | some w =>
      by_cases hq : jsTrim q = ""
      · simp [memory_search, hq] at hrow
      · cases eo with
        | false => simp [memory_search, hq] at hrow
        | true =>
          simp [memory_search, hq] at hrow
          obtain ⟨m, hm, hid, _, _, ha, _, _⟩ := mem_search_memory_notes hrow.1
          exact ⟨m, hm, hid, ha⟩

/-- C3: every row returned by `hybrid_search_memories` refers to a
record of the requested workspace, with `importance_score` at least
`min_importance`, and not archived — all three filters are enforced
inside the SQL function (they appear in both CTEs' WHERE clauses). -/
theorem hybrid_filters_enforced_serverside :
    ∀ rank tsM dist table wid lim wb wv minImp,
      (List.map MemoryNote.id table).Nodup →
      ∀ row ∈ hybrid_search_memories rank tsM dist table wid lim wb wv minImp,
        ∃ m ∈ table, m.id = row.id ∧ m.workspace_id = wid ∧
          minImp ≤ m.importance_score ∧ m.archived ≠ some true ∧
          row.importance_score = m.importance_score := by
  intro rank tsM dist table wid lim wb wv minImp hnd row hrow
  obtain ⟨c, hc, m, hmem, hid, hrm⟩ := hybrid_row_cases hrow
  obtain ⟨sb, sv, _, _, hone, _, _⟩ := mem_combinedEntries hc
  have horigin : ∃ mm ∈ table, mm.id = c.memory_id ∧ mm.workspace_id = wid ∧
      minImp ≤ mm.importance_score ∧ mm.archived ≠ some true := by
    rcases hone with hbm | hvm
    · obtain ⟨mm, hmm, hmid, _, hw, _, hi, ha⟩ := mem_bm25Scores hbm
      exact ⟨mm, hmm, hmid, hw, hi, ha⟩
    · obtain ⟨mm, hmm, hmid, _, hw, _, hi, ha⟩ := mem_vectorScores hvm
      exact ⟨mm, hmm, hmid, hw, hi, ha⟩
  obtain ⟨mm, hmm, hmid, hw, hi, ha⟩ := horigin
  have hmeq : m = mm := note_id_unique hnd hmem hmm (by rw [hid, hmid])
  subst hmeq
  refine ⟨m, hmem, ?_, hw, hi, ha, ?_⟩
  · rw [hrm]; rfl
  · rw [hrm]; rfl

/-- C2 witness: the non-archived witness record backs the returned row
of the witness scenario. -/
theorem archived_rows_never_returned_witness :
    ∃ m ∈ [wNote], m.id = wRow.id ∧ m.archived ≠ some true :=
  archived_rows_never_returned.1 (fun _ => 2) (fun _ => true) (fun _ => 1 / 4)
    [wNote] 3 10 (3 / 10) (7 / 10) 0 w_nodup wRow wRow_mem

/-- C3 witness: the witness row belongs to workspace 3, passes the
importance filter and is not archived. -/
theorem hybrid_filters_enforced_serverside_witness :
    ∃ m ∈ [wNote], m.id = wRow.id ∧ m.workspace_id = 3 ∧
      (0 : ℚ) ≤ m.importance_score ∧ m.archived ≠ some true ∧
      wRow.importance_score = m.importance_score :=
  hybrid_filters_enforced_serverside (fun _ => 2) (fun _ => true)
    (fun _ => 1 / 4) [wNote] 3 10 (3 / 10) (7 / 10) 0 w_nodup wRow wRow_mem

/-- C4 counterexample: the claim asserts that the bm25 and vector
components entering the blended-score combination each lie in `[0, 1]`.
The SQL applies no rescaling: it combines the raw `ts_rank_cd` output
and the raw `1 - cosine_distance` value.  pgvector's cosine distance
ranges over `[0, 2]` (distance 2 at antipodal embeddings), so at
distance 2 the vector component entering the combination is `-1`: the
single returned row of this invocation (with the default weights
0.3/0.7) reports `vector_score = -1`, outside `[0, 1]`. -/
theorem hybrid_scores_not_scaled_counterexample :
    (hybrid_search_memories (fun _ => 0) (fun _ => false) (fun _ => 2)
        [c4Note] 7 10 (3 / 10) (7 / 10) 0).map HybridRow.vector_score =
      [some (-1)] ∧
    ¬ ((0 : ℚ) ≤ -1) := by
  constructor
  · simp [hybrid_search_memories, hybridRowsUnsorted, bm25Scores, vectorScores,
      combinedEntries, mkHybridRow, vdist, c4Note, List.filter,
      List.insertionSort, List.orderedInsert, List.find?, List.filterMap]
    norm_num
  · norm_num

/-- C4 amended: the lexical and vector scores are each independently
weighted, with defaults 0.3 lexical and 0.7 vector, and the blended
score is the weighted combination of the two raw components times the
record's importance — but the components are NOT rescaled into `[0, 1]`
before combination: for nonzero weights every returned row reports the
raw components `b` and `v` it was combined from, and the blended score
equals `(wb * b + wv * v) * importance_score` with no intermediate
normalisation step. -/
theorem hybrid_raw_weighted_combination :
    default_bm25_weight = 3 / 10 ∧ default_vector_weight = 7 / 10 ∧
    ∀ rank tsM dist table wid lim wb wv minImp, wb ≠ 0 → wv ≠ 0 →
      ∀ row ∈ hybrid_search_memories rank tsM dist table wid lim wb wv minImp,
        ∃ b v : ℚ, row.bm25_score = some b ∧ row.vector_score = some v ∧
          row.hybrid_score = (wb * b + wv * v) * row.importance_score := by
  refine ⟨rfl, rfl, ?_⟩
  intro rank tsM dist table wid lim wb wv minImp hwb hwv row hrow
  obtain ⟨c, _, m, _, _, hrm⟩ := hybrid_row_cases hrow
  subst hrm
  refine ⟨c.weighted_bm25 / wb, c.weighted_vector / wv, ?_, ?_, ?_⟩
  · simp [mkHybridRow, hwb]
  · simp [mkHybridRow, hwv]
  · show (c.weighted_bm25 + c.weighted_vector) * m.importance_score =
      (wb * (c.weighted_bm25 / wb) + wv * (c.weighted_vector / wv)) *
        m.importance_score
    rw [mul_comm wb _, mul_comm wv _, div_mul_cancel₀ _ hwb,
      div_mul_cancel₀ _ hwv]

/-- C4 amended witness: the witness row reports raw components 2 and
3/4 (the bm25 component already exceeding 1), blended as
`(0.3 * 2 + 0.7 * 3/4) * 0.5 = 9/16`. -/
theorem hybrid_raw_weighted_combination_witness :
    ∃ b v : ℚ, wRow.bm25_score = some b ∧ wRow.vector_score = some v ∧
      wRow.hybrid_score = ((3 / 10) * b + (7 / 10) * v) * wRow.importance_score :=
  hybrid_raw_weighted_combination.2.2 (fun _ => 2) (fun _ => true)
    (fun _ => 1 / 4) [wNote] 3 10 (3 / 10) (7 / 10) 0 (by norm_num)
    (by norm_num) wRow wRow_mem

/-- C5: `hybrid_search_memories` returns its rows sorted by blended
score descending and truncated to the requested limit
(`ORDER BY hybrid_score DESC LIMIT limit_count`); the `memory-search`
endpoint never requests more than 50 rows from the backing store
(`match_count = Math.min(limit, 50)` for every caller-supplied limit,
default 10), and for a valid request its results are exactly the RPC
rows for that capped count (post-filtered on the absent `archived`
field). -/
theorem hybrid_sorted_capped_and_matchcount :
    (∀ rank tsM dist table wid lim wb wv minImp,
        List.Sorted (fun a b : HybridRow => b.hybrid_score ≤ a.hybrid_score)
          (hybrid_search_memories rank tsM dist table wid lim wb wv minImp) ∧
        (hybrid_search_memories rank tsM dist table wid lim wb wv minImp).length
          ≤ lim) ∧
    (∀ limit : Option Int, matchCountOf limit ≤ 50) ∧
    (∀ dist table w q limit, jsTrim q ≠ "" →
        (memory_search dist table (some w) q limit true).results =
          (search_memory_notes dist table w (1 / 2)
              (matchCountOf limit).toNat).filter
            (fun r => !decide (jsArchivedField r = some true))) := by
  refine ⟨?_, ?_, ?_⟩
  · intro rank tsM dist table wid lim wb wv minImp
    constructor
    · have hs := @List.sorted_insertionSort HybridRow
        (fun a b => b.hybrid_score ≤ a.hybrid_score)
        (fun a b => inferInstance)
        ⟨fun a b => le_total b.hybrid_score a.hybrid_score⟩
        ⟨fun a b c h1 h2 => le_trans h2 h1⟩
        (hybridRowsUnsorted rank tsM dist table wid lim wb wv minImp)
      exact List.Pairwise.sublist (List.take_sublist _ _) hs
    · exact List.length_take_le _ _
  · intro limit
    exact min_le_right _ _
  · intro dist table w q limit hq
    simp [memory_search, hq]

/-- C5 witness: a caller-supplied limit of 60 is capped to a
`match_count` of 50, and a valid request's results are the capped RPC
call's rows. -/
theorem hybrid_sorted_capped_and_matchcount_witness :
    (memory_search (fun _ => 1 / 4) [wNote] (some 3) ("gamma") (some 60)
        true).results =
      (search_memory_notes (fun _ => 1 / 4) [wNote] 3 (1 / 2)
          (matchCountOf (some 60)).toNat).filter
        (fun r => !decide (jsArchivedField r = some true)) :=
  hybrid_sorted_capped_and_matchcount.2.2 (fun _ => 1 / 4) [wNote] 3 ("gamma")
    (some 60) (by decide)

/-- C6 counterexample: the claim asserts that equal blended scores are
tie-broken by protection priority (IMMUTABLE first) and then recency.
`hybrid_search_memories` orders by `hybrid_score` alone: on a table
holding a STANDARD, older record (`c6A`, level 2, created 5) before an
IMMUTABLE, newer one (`c6B`, level 0, created 10) with identical
blended scores, the output violates the asserted tie-break policy. -/
theorem tie_break_not_implemented_counterexample :
    ¬ tieBreakOk c6lvl (hybrid_search_memories (fun _ => 0) (fun _ => false)
        (fun _ => 1 / 2) [c6A, c6B] 7 10 (3 / 10) (7 / 10) 0) ∧
    c6lvl c6A.id = 2 ∧ c6lvl c6B.id = 0 ∧
    c6A.protection_level = some 2 ∧ c6B.protection_level = some 0 := by
  refine ⟨?_, rfl, rfl, rfl, rfl⟩
  rw [c6_eval, tieBreakOk]
  intro hp
  rcases List.pairwise_cons.mp hp with ⟨h1, -⟩
  have := h1 c6RowB (List.mem_singleton.mpr rfl) rfl
  simp [c6RowA, c6RowB, c6lvl] at this

/-- C6 amended: the SQL has no tie-break clause — ordering is by
`hybrid_score DESC` only, so rows with equal blended scores appear in
candidate order regardless of protection level or `created_at`: in the
probe, the STANDARD, older row precedes the IMMUTABLE, more recent one. -/
theorem tie_break_amended :
    hybrid_search_memories (fun _ => 0) (fun _ => false) (fun _ => 1 / 2)
        [c6A, c6B] 7 10 (3 / 10) (7 / 10) 0 = [c6RowA, c6RowB] ∧
    c6RowA.hybrid_score = c6RowB.hybrid_score ∧
    c6RowA.id = c6A.id ∧ c6RowB.id = c6B.id ∧
    c6A.protection_level = some 2 ∧ c6B.protection_level = some 0 ∧
    c6RowA.created_at < c6RowB.created_at :=
  ⟨c6_eval, rfl, rfl, rfl, rfl, rfl, by norm_num [c6RowA, c6RowB]⟩

/-- C7: the `memory:recall` handler always returns a result object and
never propagates an exception: with the engine uninitialized it returns
the empty result, when the engine call throws it returns the empty
result annotated with the thrown message, and when the engine resolves
it returns the engine's result unchanged. -/
theorem recall_handler_total :
    ∀ (engine : Option (Except String RecallResult)) (q : String),
      (engine = none → memory_recall_handler engine q =
        { memories := [], totalFound := 0, searchTimeMs := 0,
          usedCache := false, query := q }) ∧
      (∀ e, engine = some (Except.error e) → memory_recall_handler engine q =
        { memories := [], totalFound := 0, searchTimeMs := 0,
          usedCache := false, query := q, errMsg := some e }) ∧
      (∀ r, engine = some (Except.ok r) → memory_recall_handler engine q = r) := by
  intro engine q
  refine ⟨?_, ?_, ?_⟩
  · rintro rfl; rfl
  · rintro e rfl; rfl
  · rintro r rfl; rfl

/-- C7 witness: a throwing engine yields the empty result annotated
with the thrown message. -/
theorem recall_handler_total_witness :
    memory_recall_handler (some (Except.error ("recall engine down")))
        ("FOMC hedge") =
      { memories := [], totalFound := 0, searchTimeMs := 0,
        usedCache := false, query := "FOMC hedge",
        errMsg := some ("recall engine down") } :=
  (recall_handler_total (some (Except.error ("recall engine down")))
    ("FOMC hedge")).2.1 ("recall engine down") rfl

/-- C8: `validateIPC` returns the data unchanged exactly when the
schema accepts it, and otherwise throws an error whose message names
the context (`Invalid ${context}: ...`); in particular a workspace id
that is not in UUID format is rejected, the empty memory query is
rejected, and any memory query longer than 2000 characters is
rejected. -/
theorem validateIPC_contract :
    (∀ (α : Type) (schema : IpcSchema α) (data : α) (context : String),
        (schema.check data = true →
          validateIPC schema data context = Except.ok data) ∧
        (schema.check data = false →
          validateIPC schema data context =
            Except.error ("Invalid " ++ context ++ ": " ++ schema.issues data))) ∧
    (∀ s : String, isUuid s = false →
        validateIPC WorkspaceIdSchema s ("workspace ID") =
          Except.error ("Invalid " ++ "workspace ID" ++ ": " ++
            WorkspaceIdSchema.issues s)) ∧
    WorkspaceIdSchema.check ("not-a-uuid") = false ∧
    WorkspaceIdSchema.check ("123e4567-e89b-12d3-a456-426614174000") = true ∧
    MemoryQuerySchema.check ("") = false ∧
    (∀ s : String, 2000 < s.length → MemoryQuerySchema.check s = false) := by
  refine ⟨?_, ?_, by decide, by decide, by decide, ?_⟩
  · intro α schema data context
    constructor
    · intro h; simp [validateIPC, h]
    · intro h; simp [validateIPC, h]
  · intro s hs
    simp [validateIPC, WorkspaceIdSchema, hs]
  · intro s hs
    have h2 : decide (s.length ≤ 2000) = false := by
      simp only [decide_eq_false_iff_not]
      omega
    simp [MemoryQuerySchema, h2]

/-- C8 witness: the empty memory query is rejected with an error naming
the context. -/
theorem validateIPC_contract_witness :
    validateIPC MemoryQuerySchema ("") ("memory query") =
      Except.error ("Invalid " ++ "memory query" ++ ": " ++
        MemoryQuerySchema.issues ("")) :=
  (validateIPC_contract.1 String MemoryQuerySchema ("") ("memory query")).2
    (by decide)

/-- C9 counterexample: the claim asserts the update-type validation
accepts exactly the eight-value enum observation/lesson/rule/strategy/
mistake/success/warning/insight.  The handler's `validTypes` list is
`insight, rule, warning, todo, bug, profile_change`: the spec-enum
value `observation` is rejected with the validation error, while
`todo` — outside the claimed enum — is accepted and stored. -/
theorem memory_type_enum_counterexample :
    (memory_update (fun _ => none) [c9Note]
        { noteId := some 4, memoryType := some ("observation") }).1 =
      UpdateResp.err 400 typeErrMsg ∧
    (memory_update (fun _ => none) [c9Note]
        { noteId := some 4, memoryType := some ("todo") }).1 =
      UpdateResp.ok { c9Note with memory_type := some ("todo") } := by
  constructor <;>
    simp [memory_update, badType, badImportance, contentEmpty, applyUpdate,
      validTypes, List.find?, c9Note]

/-- C9 amended: the `memory-update` type validation accepts exactly the
six values `insight, rule, warning, todo, bug, profile_change`: for any
request carrying a non-empty `memoryType` (and a `noteId`), the handler
answers with the invalid-type validation error precisely when the type
is outside that list.  Of the spec's eight-value enum only `insight`,
`rule` and `warning` pass. -/
theorem memory_type_validation_amended :
    ∀ (g : String → Option (List ℚ)) (db : List MemoryNote)
      (req : UpdateRequest) (n : Nat) (t : String),
      req.noteId = some n → req.memoryType = some t → t ≠ "" →
      ((memory_update g db req).1 = UpdateResp.err 400 typeErrMsg ↔
        t ∉ validTypes) := by
  intro g db req n t hn ht hne
  by_cases hmem : t ∈ validTypes
  · simp only [hmem, not_true_eq_false, iff_false]
    have hbt : badType req = false := by
      simp [badType, ht, hne, hmem]
    intro hcontra
    rw [memory_update, hn] at hcontra
    rw [hbt] at hcontra
    simp only [Bool.false_eq_true, if_false] at hcontra
    cases hbi : badImportance req with
    | true =>
      rw [hbi] at hcontra
      simp only [if_true] at hcontra
      have : importanceErrMsg = typeErrMsg := by
        injection hcontra with h1 h2
      simp [importanceErrMsg, typeErrMsg] at this
    | false =>
      rw [hbi] at hcontra
      simp only [Bool.false_eq_true, if_false] at hcontra
      cases hf : db.find? (fun m => decide (m.id = n)) with
      | none =>
        rw [hf] at hcontra
        simp at hcontra
      | some note =>
        rw [hf] at hcontra
        cases hce : contentEmpty req with
        | true =>
          rw [hce] at hcontra
          simp only [if_true] at hcontra
          have : ("Content cannot be empty" : String) = typeErrMsg := by
            injection hcontra with h1 h2
          simp [typeErrMsg] at this
        | false =>
          rw [hce] at hcontra
          simp at hcontra
  · simp only [hmem, not_false_eq_true, iff_true]
    have hbt : badType req = true := by
      simp [badType, ht, hne, hmem]
    rw [memory_update, hn, hbt]
    simp

/-- C9 amended witness: a type outside the handler's list is the
validation error, by the amended equivalence at a concrete request. -/
theorem memory_type_validation_amended_witness :
    ((memory_update (fun _ => none) [c9Note]
        { noteId := some 4, memoryType := some ("gibberish") }).1 =
      UpdateResp.err 400 typeErrMsg ↔ ("gibberish" : String) ∉ validTypes) :=
  memory_type_validation_amended (fun _ => none) [c9Note]
    { noteId := some 4, memoryType := some ("gibberish") } 4 ("gibberish")
    rfl rfl (by decide)

/-- C10: every returned row's `hybrid_score` equals
`(bm25_weight * b + vector_weight * v) * importance_score`, where `b`
is the row's raw bm25 CTE score — taken as 0 when the row id has no
bm25 CTE entry (no lexical match) — and `v` its raw vector CTE score —
taken as 0 when the row id is not among the vector candidates; in
particular a record with `importance_score = 0` always gets
`hybrid_score = 0`. -/
theorem hybrid_score_formula :
    ∀ rank tsM dist table wid lim wb wv minImp,
      ∀ row ∈ hybrid_search_memories rank tsM dist table wid lim wb wv minImp,
        (∃ b v : ℚ,
          ((row.id, b) ∈ bm25Scores rank tsM table wid minImp ∨
            (b = 0 ∧ ∀ s, (row.id, s) ∉ bm25Scores rank tsM table wid minImp)) ∧
          ((row.id, v) ∈ vectorScores dist table wid lim minImp ∨
            (v = 0 ∧ ∀ s, (row.id, s) ∉ vectorScores dist table wid lim minImp)) ∧
          row.hybrid_score = (wb * b + wv * v) * row.importance_score) ∧
        (row.importance_score = 0 → row.hybrid_score = 0) := by
  intro rank tsM dist table wid lim wb wv minImp row hrow
  obtain ⟨c, hc, m, hmem, hid, hrm⟩ := hybrid_row_cases hrow
  obtain ⟨sb, sv, hb, hv, _, hwb, hwv⟩ := mem_combinedEntries hc
  have hrid : row.id = c.memory_id := by rw [hrm]; exact hid
  constructor
  · refine ⟨sb, sv, ?_, ?_, ?_⟩
    · rw [hrid]; exact hb
    · rw [hrid]; exact hv
    · rw [hrm]
      show (c.weighted_bm25 + c.weighted_vector) * m.importance_score =
        (wb * sb + wv * sv) * m.importance_score
      rw [hwb, hwv]; ring
  · intro h0
    rw [hrm] at h0 ⊢
    show (c.weighted_bm25 + c.weighted_vector) * m.importance_score = 0
    have : m.importance_score = 0 := h0
    rw [this, mul_zero]

/-- C10 witness: the witness row's blended score is
`(0.3 * 2 + 0.7 * 3/4) * (1/2) = 9/16`, with both CTE memberships
realised; and the zero-importance implication holds at it. -/
theorem hybrid_score_formula_witness :
    (∃ b v : ℚ,
      ((wRow.id, b) ∈ bm25Scores (fun _ => 2) (fun _ => true) [wNote] 3 0 ∨
        (b = 0 ∧ ∀ s, (wRow.id, s) ∉ bm25Scores (fun _ => 2) (fun _ => true)
          [wNote] 3 0)) ∧
      ((wRow.id, v) ∈ vectorScores (fun _ => 1 / 4) [wNote] 3 10 0 ∨
        (v = 0 ∧ ∀ s, (wRow.id, s) ∉ vectorScores (fun _ => 1 / 4)
          [wNote] 3 10 0)) ∧
      wRow.hybrid_score = ((3 / 10) * b + (7 / 10) * v) * wRow.importance_score) ∧
    (wRow.importance_score = 0 → wRow.hybrid_score = 0) :=
  hybrid_score_formula (fun _ => 2) (fun _ => true) (fun _ => 1 / 4) [wNote]
    3 10 (3 / 10) (7 / 10) 0 wRow wRow_mem

end QuantChat
